import Mathlib

/-!
Verification of the windows-helpers repository against its specification.

This file gives a shallow embedding of the parts of the repository that the
claims concern:

* src/cell.rs — ReentrantRefCell, a RefCell variant whose
  borrow_mut_reentrant method allows nested mutable borrows from within
  the callback it runs (used for reentrant Win32 window procedures);
* src/bit_manipulation.rs — the Width32BitPortion trait packing two
  16-bit halves into 32-bit-and-wider integer types, implemented for
  u32, i32, usize and isize;
* src/dual_call.rs — dual_call, the call-once-for-the-buffer-size helper,
  and its FirstCallExpectation type.

Machine integers are embedded as Nat bit patterns with explicit masking;
Rust panics are embedded as Except errors; the FnMut closure of
dual_call is embedded in state-passing style.
-/

/-! ## Model of the borrow flag of std::cell::RefCell

RefCell tracks either no borrow, some number of shared guards obtained by
borrow, or one exclusive guard obtained by borrow_mut.  borrow_mut panics
with a borrow error unless the flag is unused; dropping the exclusive
guard puts the flag back to unused. -/

inductive BorrowState where
  | unused
  | shared (count : Nat)
  | exclusive
deriving DecidableEq

/-- A Rust panic payload: either a panic raised by user code inside a
callback (identified by a code so that equality of error values is
expressible), or the BorrowMutError panic that RefCell raises from
borrow_mut on a conflicting borrow. -/
inductive PanicPayload where
  | user (code : Nat)
  | borrowMutError
deriving DecidableEq

/-- The closures passed to borrow_mut_reentrant of ReentrantRefCell are
embedded as syntax trees: a closure body may mutate the value through the
mutable view it was handed, re-enter the cell through a nested
borrow_mut_reentrant call, panic, or finish, computing its return value
from the value it sees. -/
inductive Body (T U : Type) where
  | done (ret : T → U)
  | modify (g : T → T) (rest : Body T U)
  | reenter (inner : Body T U) (rest : Body T U)
  | raise (code : Nat)

/-- The state of a ReentrantRefCell of T from src/cell.rs: the
num_mut_re_borrows counter (a Cell of usize), and the inner RefCell of T,
i.e. its borrow flag plus the stored value. -/
structure ReentrantRefCell (T : Type) where
  num_mut_re_borrows : Nat
  borrow_state : BorrowState
  value : T
deriving DecidableEq

/-- The new constructor of ReentrantRefCell. -/
def ReentrantRefCell.new {T : Type} (data : T) : ReentrantRefCell T :=
  { num_mut_re_borrows := 0, borrow_state := BorrowState.unused, value := data }

/-- The borrow method of ReentrantRefCell, which is the borrow method of
RefCell: returns the value behind a shared guard, or panics (modelled as
none) if an exclusive borrow is active. -/
def ReentrantRefCell.borrow {T : Type} (c : ReentrantRefCell T) : Option T :=
  match c.borrow_state with
  | BorrowState.exclusive => none
  | _ => some c.value

/-- Runs a closure body against the cell.  The reenter case inlines a
nested borrow_mut_reentrant call (the lemma runBody_reenter below
identifies the inlined code with borrow_mut_reentrant itself):
the counter is bumped with its previous value captured, the body runs —
through a fresh borrow_mut of the RefCell when the previous depth was 0,
through the unchecked as_ptr aliasing otherwise — the counter is restored
on both the normal and the panic path (catch_unwind followed by
the restoring replace), and a panic then resumes via resume_unwind. -/
def runBody {T U : Type} :
    Body T U → ReentrantRefCell T → ReentrantRefCell T × Except PanicPayload U
  | Body.done ret, c => (c, Except.ok (ret c.value))
  | Body.modify g rest, c => runBody rest { c with value := g c.value }
  | Body.raise code, c => (c, Except.error (PanicPayload.user code))
  | Body.reenter inner rest, c =>
    let prev := c.num_mut_re_borrows
    let caught :=
      if prev = 0 then
        match c.borrow_state with
        | BorrowState.unused =>
          let run := runBody inner
            { c with num_mut_re_borrows := prev + 1, borrow_state := BorrowState.exclusive }
          ({ run.1 with borrow_state := BorrowState.unused }, run.2)
        | _ => ({ c with num_mut_re_borrows := prev + 1 },
                Except.error PanicPayload.borrowMutError)
      else
        runBody inner { c with num_mut_re_borrows := prev + 1 }
    match ({ caught.1 with num_mut_re_borrows := prev }, caught.2) with
    | (cNext, Except.ok _) => runBody rest cNext
    | (cNext, Except.error p) => (cNext, Except.error p)

/-- The body of the catch_unwind closure in borrow_mut_reentrant,
evaluated after the counter has been bumped: if the previous depth was 0,
take a real exclusive borrow via borrow_mut — which panics with
BorrowMutError unless the borrow flag is unused, and whose guard is
dropped (flag back to unused) when the closure finishes or unwinds;
otherwise alias the storage through as_ptr without touching the borrow
flag. -/
def caught_result {T U : Type} (b : Body T U) (c : ReentrantRefCell T) :
    ReentrantRefCell T × Except PanicPayload U :=
  if c.num_mut_re_borrows = 0 then
    match c.borrow_state with
    | BorrowState.unused =>
      let run := runBody b
        { c with num_mut_re_borrows := c.num_mut_re_borrows + 1,
                 borrow_state := BorrowState.exclusive }
      ({ run.1 with borrow_state := BorrowState.unused }, run.2)
    | _ => ({ c with num_mut_re_borrows := c.num_mut_re_borrows + 1 },
            Except.error PanicPayload.borrowMutError)
  else
    runBody b { c with num_mut_re_borrows := c.num_mut_re_borrows + 1 }

/-- The borrow_mut_reentrant method of ReentrantRefCell from src/cell.rs:
capture the previous counter value while incrementing it, run the closure
under catch_unwind, restore the counter, then either return the value of
the closure or resume the caught panic unchanged. -/
def borrow_mut_reentrant {T U : Type} (b : Body T U) (c : ReentrantRefCell T) :
    ReentrantRefCell T × Except PanicPayload U :=
  let caught := caught_result b c
  ({ caught.1 with num_mut_re_borrows := c.num_mut_re_borrows }, caught.2)

/-- A sequence of top-level borrow_mut_reentrant calls against the cell
(return values discarded), for stating the cross-call counter invariant. -/
def runOps {T U : Type} (ops : List (Body T U)) (c : ReentrantRefCell T) :
    ReentrantRefCell T :=
  match ops with
  | [] => c
  | b :: rest => runOps rest (borrow_mut_reentrant b c).1

/-- A closure that panics with payload code at nesting depth n + 1
below the call it is passed to: panicAt code 0 panics directly,
panicAt code (n + 1) re-enters and panics deeper.  (The code after the
reenter is never reached.) -/
def panicAt {T U : Type} (code : Nat) : Nat → Body T U
  | 0 => Body.raise code
  | n + 1 => Body.reenter (panicAt code n) (Body.raise code)

/-- Whether a closure body never re-enters the cell. -/
def isFlat {T U : Type} : Body T U → Bool
  | Body.done _ => true
  | Body.modify _ rest => isFlat rest
  | Body.reenter _ _ => false
  | Body.raise _ => true

/-- Specification-side semantics of a non-re-entering closure: what it does
to the value it is handed, and its outcome.  (The reenter case is
arbitrary; it is ruled out by isFlat.) -/
def runFlat {T U : Type} : Body T U → T → T × Except PanicPayload U
  | Body.done ret, v => (v, Except.ok (ret v))
  | Body.modify g rest, v => runFlat rest (g v)
  | Body.raise code, v => (v, Except.error (PanicPayload.user code))
  | Body.reenter _ _, v => (v, Except.error PanicPayload.borrowMutError)

/-- The closure of the concrete scenario in the spec, with the outer
closure returning 42: add 1, re-enter with a closure adding 10, add 100,
return 42. -/
def scenarioBody : Body Nat Nat :=
  Body.modify (fun v => v + 1)
    (Body.reenter (Body.modify (fun v2 => v2 + 10) (Body.done (fun _ => 0)))
      (Body.modify (fun v => v + 100) (Body.done (fun _ => 42))))

/-! ## Model of Width32BitPortion from src/bit_manipulation.rs

The macro impl_width_32_portion instantiates one textual implementation
for each of u32, i32, usize and isize.  Each value is embedded as its bit
pattern, a Nat below 2 to the width.  The implementations differ
semantically only in the right shift of high_u16, which is arithmetic
(sign-extending) for the signed types; usize and isize are taken at the
64-bit width of the targets the crate supports. -/

namespace U32

def from_low_high_u16 (low high : Nat) : Nat :=
  (low &&& 0xffff) ||| ((high &&& 0xffff) <<< 16)

def from_high_low_u16 (high low : Nat) : Nat :=
  from_low_high_u16 low high

def low_u16 (x : Nat) : Nat :=
  (x &&& 0xffff) % 2 ^ 16

def high_u16 (x : Nat) : Nat :=
  ((x >>> 16) &&& 0xffff) % 2 ^ 16

end U32

namespace I32

def from_low_high_u16 (low high : Nat) : Nat :=
  (low &&& 0xffff) ||| ((high &&& 0xffff) <<< 16)

def from_high_low_u16 (high low : Nat) : Nat :=
  from_low_high_u16 low high

def low_u16 (x : Nat) : Nat :=
  (x &&& 0xffff) % 2 ^ 16

/-- Arithmetic (sign-extending) right shift on a 32-bit pattern. -/
def asr32 (x n : Nat) : Nat :=
  if x < 2 ^ 31 then x >>> n else (x >>> n) ||| (2 ^ 32 - 2 ^ (32 - n))

def high_u16 (x : Nat) : Nat :=
  (asr32 x 16 &&& 0xffff) % 2 ^ 16

end I32

namespace Usize

def from_low_high_u16 (low high : Nat) : Nat :=
  (low &&& 0xffff) ||| ((high &&& 0xffff) <<< 16)

def from_high_low_u16 (high low : Nat) : Nat :=
  from_low_high_u16 low high

def low_u16 (x : Nat) : Nat :=
  (x &&& 0xffff) % 2 ^ 16

def high_u16 (x : Nat) : Nat :=
  ((x >>> 16) &&& 0xffff) % 2 ^ 16

end Usize

namespace Isize

def from_low_high_u16 (low high : Nat) : Nat :=
  (low &&& 0xffff) ||| ((high &&& 0xffff) <<< 16)

def from_high_low_u16 (high low : Nat) : Nat :=
  from_low_high_u16 low high

def low_u16 (x : Nat) : Nat :=
  (x &&& 0xffff) % 2 ^ 16

/-- Arithmetic (sign-extending) right shift on a 64-bit pattern. -/
def asr64 (x n : Nat) : Nat :=
  if x < 2 ^ 63 then x >>> n else (x >>> n) ||| (2 ^ 64 - 2 ^ (64 - n))

def high_u16 (x : Nat) : Nat :=
  (asr64 x 16 &&& 0xffff) % 2 ^ 16

end Isize

/-! ## Model of src/dual_call.rs -/

/-- An HRESULT value of the windows crate, embedded as its 32-bit
pattern. -/
structure HRESULT where
  code : Nat
deriving DecidableEq

/-- A WIN32_ERROR value of the windows crate. -/
structure WIN32_ERROR where
  code : Nat
deriving DecidableEq

/-- An Error of windows::core, identified by the HRESULT that its code
method returns. -/
structure WinError where
  code : HRESULT
deriving DecidableEq

/-- E_UNEXPECTED (0x8000FFFF). -/
def E_UNEXPECTED : HRESULT := { code := 0x8000FFFF }

/-- The to_hresult method of WIN32_ERROR in the windows crate, the
documented HRESULT_FROM_WIN32 conversion. -/
def WIN32_ERROR.to_hresult (w : WIN32_ERROR) : HRESULT :=
  if w.code = 0 then { code := 0 } else { code := (w.code &&& 0xffff) ||| 0x80070000 }

/-- The expectation on the first call of dual_call, from src/dual_call.rs. -/
inductive FirstCallExpectation (T : Type) where
  | Ok
  | OkValue (expected_value : T)
  | Win32Error (win_32_error : WIN32_ERROR)
  | HResultError (h_result : HRESULT)

/-- Shared tail of dual_call for the Win32Error and HResultError
expectations, after expected_h_result has been computed. -/
def dual_call_on_expected_error {T S : Type} (expected_h_result : HRESULT)
    (call : S → Bool → S × Except WinError T) (s : S) : S × Except WinError T :=
  match call s true with
  | (s1, Except.error error) =>
    if error.code = expected_h_result then call s1 false
    else (s1, Except.error error)
  | (s1, Except.ok _) => (s1, Except.error { code := E_UNEXPECTED })

/-- dual_call from src/dual_call.rs.  The FnMut closure is embedded in
state-passing style: call receives its mutable environment S explicitly
and returns the updated environment next to its Result value; the
returned S is the environment after exactly the calls that were made. -/
def dual_call {T S : Type} [DecidableEq T]
    (first_call_expectation : FirstCallExpectation T)
    (call : S → Bool → S × Except WinError T) (s : S) : S × Except WinError T :=
  match first_call_expectation with
  | FirstCallExpectation.Ok =>
    match call s true with
    | (s1, Except.error error) => (s1, Except.error error)
    | (s1, Except.ok _) => call s1 false
  | FirstCallExpectation.OkValue expected_value =>
    match call s true with
    | (s1, Except.error error) => (s1, Except.error error)
    | (s1, Except.ok v) =>
      if v = expected_value then call s1 false
      else (s1, Except.error { code := E_UNEXPECTED })
  | FirstCallExpectation.Win32Error win_32_error =>
    dual_call_on_expected_error win_32_error.to_hresult call s
  | FirstCallExpectation.HResultError h_result =>
    dual_call_on_expected_error h_result call s

/-! ## Supporting lemmas for the cell -/

/-- The inlined reenter case of runBody is exactly a nested
borrow_mut_reentrant call. -/
theorem runBody_reenter {T U : Type} (inner rest : Body T U) (c : ReentrantRefCell T) :
    runBody (Body.reenter inner rest) c =
      match borrow_mut_reentrant inner c with
      | (cNext, Except.ok _) => runBody rest cNext
      | (cNext, Except.error p) => (cNext, Except.error p) := by
  simp only [runBody, borrow_mut_reentrant, caught_result]

/-- Every borrow_mut_reentrant call restores the counter to its previous
value on exit. -/
theorem borrow_mut_reentrant_num {T U : Type} (b : Body T U) (c : ReentrantRefCell T) :
    (borrow_mut_reentrant b c).1.num_mut_re_borrows = c.num_mut_re_borrows := rfl

/-- Running a closure body leaves both the counter and the borrow flag of
the cell as they were. -/
theorem runBody_preserves {T U : Type} (b : Body T U) :
    ∀ c : ReentrantRefCell T,
      (runBody b c).1.num_mut_re_borrows = c.num_mut_re_borrows ∧
      (runBody b c).1.borrow_state = c.borrow_state := by
  induction b with
  | done ret => intro c; exact ⟨rfl, rfl⟩
  | modify g rest ih => intro c; simpa [runBody] using ih { c with value := g c.value }
  | raise code => intro c; exact ⟨rfl, rfl⟩
  | reenter inner rest ih1 ih2 =>
    intro c
    rw [runBody_reenter]
    have hborrow : (borrow_mut_reentrant inner c).1.borrow_state = c.borrow_state := by
      unfold borrow_mut_reentrant caught_result
      by_cases h : c.num_mut_re_borrows = 0
      · simp only [h, if_pos rfl]
        cases hb : c.borrow_state <;> simp [hb, (ih1 _).2]
      · simp [h, (ih1 _).2]
    cases hres : borrow_mut_reentrant inner c with
    | mk cNext r =>
      cases r with
      | ok u =>
        have h1 : cNext.num_mut_re_borrows = c.num_mut_re_borrows := by
          have := borrow_mut_reentrant_num inner c
          rw [hres] at this; exact this
        have h2 : cNext.borrow_state = c.borrow_state := by
          rw [hres] at hborrow; exact hborrow
        simpa [h1, h2] using ih2 cNext
      | error p =>
        have h1 : cNext.num_mut_re_borrows = c.num_mut_re_borrows := by
          have := borrow_mut_reentrant_num inner c
          rw [hres] at this; exact this
        have h2 : cNext.borrow_state = c.borrow_state := by
          rw [hres] at hborrow; exact hborrow
        simp [h1, h2]

/-- borrow_mut_reentrant leaves both the counter and the borrow flag of
the cell as they were. -/
theorem borrow_mut_reentrant_preserves {T U : Type} (b : Body T U) (c : ReentrantRefCell T) :
    (borrow_mut_reentrant b c).1.num_mut_re_borrows = c.num_mut_re_borrows ∧
    (borrow_mut_reentrant b c).1.borrow_state = c.borrow_state := by
  refine ⟨rfl, ?_⟩
  unfold borrow_mut_reentrant caught_result
  by_cases h : c.num_mut_re_borrows = 0
  · simp only [h, if_pos rfl]
    cases hb : c.borrow_state <;> simp [hb, (runBody_preserves b _).2]
  · simp [h, (runBody_preserves b _).2]

/-- While a mutation session is active (counter positive), running a
closure body can never fail with BorrowMutError: every nested call takes
the unchecked aliasing path. -/
theorem runBody_no_conflict {T U : Type} (b : Body T U) :
    ∀ c : ReentrantRefCell T, 0 < c.num_mut_re_borrows →
      (runBody b c).2 ≠ Except.error PanicPayload.borrowMutError := by
  induction b with
  | done ret => intro c h; simp [runBody]
  | modify g rest ih => intro c h; simpa [runBody] using ih { c with value := g c.value } h
  | raise code => intro c h; simp [runBody]
  | reenter inner rest ih1 ih2 =>
    intro c h
    rw [runBody_reenter]
    have hinner : (borrow_mut_reentrant inner c).2
        ≠ Except.error PanicPayload.borrowMutError := by
      unfold borrow_mut_reentrant caught_result
      have hne : ¬ c.num_mut_re_borrows = 0 := by omega
      simpa [hne] using
        ih1 { c with num_mut_re_borrows := c.num_mut_re_borrows + 1 } (by simp)
    cases hres : borrow_mut_reentrant inner c with
    | mk cNext r =>
      cases r with
      | ok u =>
        have h1 : cNext.num_mut_re_borrows = c.num_mut_re_borrows := by
          have := borrow_mut_reentrant_num inner c
          rw [hres] at this; exact this
        exact ih2 cNext (by omega)
      | error p =>
        have hp : p ≠ PanicPayload.borrowMutError := by
          rw [hres] at hinner; simpa using hinner
        simpa using hp

/-- A borrow_mut_reentrant call on a quiescent cell (no session active, no
foreign borrow held) is never rejected with BorrowMutError. -/
theorem borrow_mut_reentrant_no_conflict {T U : Type} (b : Body T U) (c : ReentrantRefCell T)
    (hnum : c.num_mut_re_borrows = 0) (hb : c.borrow_state = BorrowState.unused) :
    (borrow_mut_reentrant b c).2 ≠ Except.error PanicPayload.borrowMutError := by
  unfold borrow_mut_reentrant caught_result
  simpa [hnum, hb] using runBody_no_conflict b _ (by simp)

/-- A sequence of top-level calls leaves the counter and the borrow flag
as they were. -/
theorem runOps_preserves {T U : Type} (ops : List (Body T U)) :
    ∀ c : ReentrantRefCell T,
      (runOps ops c).num_mut_re_borrows = c.num_mut_re_borrows ∧
      (runOps ops c).borrow_state = c.borrow_state := by
  induction ops with
  | nil => intro c; exact ⟨rfl, rfl⟩
  | cons b rest ih =>
    intro c
    have h := borrow_mut_reentrant_preserves b c
    have h2 := ih (borrow_mut_reentrant b c).1
    simp only [runOps]
    exact ⟨h2.1.trans h.1, h2.2.trans h.2⟩

/-- Inside an active session, a closure that panics at depth n propagates
exactly its panic payload and leaves the cell state untouched. -/
theorem runBody_panicAt {T U : Type} (code : Nat) :
    ∀ (n : Nat) (c : ReentrantRefCell T), 0 < c.num_mut_re_borrows →
      runBody (panicAt (U := U) code n) c = (c, Except.error (PanicPayload.user code)) := by
  intro n
  induction n with
  | zero => intro c h; simp [panicAt, runBody]
  | succ n ih =>
    intro c h
    show runBody (Body.reenter (panicAt code n) (Body.raise code)) c = _
    rw [runBody_reenter]
    have hmut : borrow_mut_reentrant (panicAt (U := U) code n) c
        = (c, Except.error (PanicPayload.user code)) := by
      unfold borrow_mut_reentrant caught_result
      have hne : ¬ c.num_mut_re_borrows = 0 := by omega
      simp [hne, ih { c with num_mut_re_borrows := c.num_mut_re_borrows + 1 } (by simp)]
    rw [hmut]

/-- A non-re-entering closure body behaves as its pure semantics: it
transforms the value and produces the outcome given by runFlat, leaving
counter and borrow flag untouched. -/
theorem runBody_flat {T U : Type} (f : Body T U) :
    isFlat f = true → ∀ c : ReentrantRefCell T,
      runBody f c = ({ c with value := (runFlat f c.value).1 }, (runFlat f c.value).2) := by
  induction f with
  | done ret => intro _ c; rfl
  | modify g rest ih =>
    intro hf c
    have hrest : isFlat rest = true := by simpa [isFlat] using hf
    show runBody rest { c with value := g c.value } = _
    rw [ih hrest]
    rfl
  | reenter inner rest ih1 ih2 => intro hf; simp [isFlat] at hf
  | raise code => intro _ c; rfl

/-! ## Supporting lemmas for the bit packing -/

/-- Masking with 0xffff is reduction modulo 2 to the 16. -/
theorem mask16_eq_mod (x : Nat) : x &&& 0xffff = x % 2 ^ 16 := by
  have h : (0xffff : Nat) = 2 ^ 16 - 1 := by norm_num
  rw [h, Nat.and_pow_two_sub_one_eq_mod]

theorem mask16_lt (x : Nat) : x &&& 0xffff < 2 ^ 16 := by
  rw [mask16_eq_mod]
  exact Nat.mod_lt _ (by norm_num)

theorem mask16_of_lt {x : Nat} (hx : x < 2 ^ 16) : x &&& 0xffff = x := by
  rw [mask16_eq_mod]
  exact Nat.mod_eq_of_lt hx

theorem pack_and_mask (a b : Nat) (ha : a < 2 ^ 16) :
    (a ||| (b <<< 16)) &&& 0xffff = a := by
  have h : (0xffff : Nat) = 2 ^ 16 - 1 := by norm_num
  rw [h]
  apply Nat.eq_of_testBit_eq
  intro i
  simp only [Nat.testBit_and, Nat.testBit_or, Nat.testBit_shiftLeft,
    Nat.testBit_two_pow_sub_one]
  by_cases hi : i < 16
  · have hge : ¬ 16 ≤ i := by omega
    simp [hi, hge]
  · have hfa : a.testBit i = false :=
      Nat.testBit_lt_two_pow
        (lt_of_lt_of_le ha (Nat.pow_le_pow_right (by norm_num) (by omega)))
    simp [hi, hfa]

theorem pack_shift (a b : Nat) (ha : a < 2 ^ 16) :
    (a ||| (b <<< 16)) >>> 16 = b := by
  apply Nat.eq_of_testBit_eq
  intro i
  simp only [Nat.testBit_shiftRight, Nat.testBit_or, Nat.testBit_shiftLeft]
  have hfa : a.testBit (16 + i) = false :=
    Nat.testBit_lt_two_pow
      (lt_of_lt_of_le ha (Nat.pow_le_pow_right (by norm_num) (by omega)))
  have hidx : 16 + i - 16 = i := by omega
  have hge : 16 ≤ 16 + i := by omega
  simp [hfa, hidx, hge]

/-- Two packed 16-bit halves fit in 32 bits. -/
theorem pack_lt (a b : Nat) : (a &&& 0xffff) ||| ((b &&& 0xffff) <<< 16) < 2 ^ 32 := by
  apply Nat.or_lt_two_pow
  · exact lt_of_lt_of_le (mask16_lt a) (by norm_num)
  · rw [Nat.shiftLeft_eq]
    calc (b &&& 0xffff) * 2 ^ 16 < 2 ^ 16 * 2 ^ 16 :=
          Nat.mul_lt_mul_of_lt_of_le (mask16_lt b) (le_refl _) (by norm_num)
      _ = 2 ^ 32 := by norm_num

theorem pack_low (low high : Nat) (hlow : low < 2 ^ 16) :
    ((low &&& 0xffff) ||| ((high &&& 0xffff) <<< 16)) &&& 0xffff = low := by
  rw [mask16_of_lt hlow, pack_and_mask low (high &&& 0xffff) hlow]

theorem pack_high (low high : Nat) (hlow : low < 2 ^ 16) (hhigh : high < 2 ^ 16) :
    ((low &&& 0xffff) ||| ((high &&& 0xffff) <<< 16)) >>> 16 = high := by
  rw [mask16_of_lt hlow, mask16_of_lt hhigh, pack_shift low high hlow]

theorem mod16_of_lt {x : Nat} (hx : x < 2 ^ 16) : x % 2 ^ 16 = x :=
  Nat.mod_eq_of_lt hx

/-! ## The claims -/

/-- Claim C1: for the cell holding integer 0, running the closure that
adds 1, makes a nested borrow_mut_reentrant call adding 10, then adds
100 and returns 42, leaves the final value at 111, the nesting counter
at 0 and the borrow flag released, and the outer call returns the return
value of the outer closure. -/
theorem c1_concrete_scenario :
    borrow_mut_reentrant scenarioBody (ReentrantRefCell.new 0) =
      ({ num_mut_re_borrows := 0, borrow_state := BorrowState.unused, value := 111 },
       Except.ok 42) := rfl

/-- Claim C2: for every pre-mutation pre and closure bodies g and rest, an
outermost call running pre, then re-entering with g, then rest: the nested
call is entered at depth 1 on the value pre v (so g observes the
mutations made before the nested call) and is granted access — it runs
the body of g directly at depth 2 with no borrow check; the outer
execution factors exactly through the nested call; after both complete
the depth counter is 0; and the whole call is never rejected as a
conflicting borrow. -/
theorem c2_nested_reentry {T U : Type} (pre : T → T) (g rest : Body T U) (v : T) :
    borrow_mut_reentrant g
        { num_mut_re_borrows := 1, borrow_state := BorrowState.exclusive, value := pre v }
      = ({ (runBody g { num_mut_re_borrows := 2, borrow_state := BorrowState.exclusive,
                        value := pre v }).1 with num_mut_re_borrows := 1 },
         (runBody g { num_mut_re_borrows := 2, borrow_state := BorrowState.exclusive,
                      value := pre v }).2)
    ∧ (borrow_mut_reentrant (Body.modify pre (Body.reenter g rest)) (ReentrantRefCell.new v)
        = match borrow_mut_reentrant g
              { num_mut_re_borrows := 1, borrow_state := BorrowState.exclusive,
                value := pre v } with
          | (cAfter, Except.ok _) =>
            ({ (runBody rest cAfter).1 with
                num_mut_re_borrows := 0
                borrow_state := BorrowState.unused },
             (runBody rest cAfter).2)
          | (cAfter, Except.error p) =>
            ({ cAfter with num_mut_re_borrows := 0, borrow_state := BorrowState.unused },
             Except.error p))
    ∧ (borrow_mut_reentrant (Body.modify pre (Body.reenter g rest))
        (ReentrantRefCell.new v)).1.num_mut_re_borrows = 0
    ∧ (borrow_mut_reentrant (Body.modify pre (Body.reenter g rest))
        (ReentrantRefCell.new v)).2 ≠ Except.error PanicPayload.borrowMutError := by
  refine ⟨rfl, ?_, rfl, borrow_mut_reentrant_no_conflict _ _ rfl rfl⟩
  have hstep : borrow_mut_reentrant (Body.modify pre (Body.reenter g rest))
        (ReentrantRefCell.new v)
      = (let run := runBody (Body.reenter g rest)
            { num_mut_re_borrows := 1, borrow_state := BorrowState.exclusive, value := pre v }
         ({ run.1 with num_mut_re_borrows := 0, borrow_state := BorrowState.unused },
          run.2)) := rfl
  rw [hstep]
  simp only [runBody_reenter]
  cases hres : borrow_mut_reentrant g
      { num_mut_re_borrows := 1, borrow_state := BorrowState.exclusive, value := pre v } with
  | mk cAfter r =>
    cases r with
    | ok u => rfl
    | error p => rfl

/-- Claim C3: a closure that panics at any nesting depth propagates the
panic out of the outermost call with the depth counter restored to 0, the
borrow flag released and the value untouched, and a subsequent
borrow_mut_reentrant call on the same cell succeeds normally. -/
theorem c3_panic_restores_depth {T U : Type} (code n : Nat) (v : T) :
    (borrow_mut_reentrant (panicAt (U := U) code n) (ReentrantRefCell.new v)
        = ({ num_mut_re_borrows := 0, borrow_state := BorrowState.unused, value := v },
           Except.error (PanicPayload.user code)))
    ∧ ∀ (g : T → T) (ret : T → U),
        borrow_mut_reentrant (Body.modify g (Body.done ret))
            (borrow_mut_reentrant (panicAt (U := U) code n) (ReentrantRefCell.new v)).1
          = ({ num_mut_re_borrows := 0, borrow_state := BorrowState.unused, value := g v },
             Except.ok (ret (g v))) := by
  have h1 : borrow_mut_reentrant (panicAt (U := U) code n) (ReentrantRefCell.new v)
      = ({ num_mut_re_borrows := 0, borrow_state := BorrowState.unused, value := v },
         Except.error (PanicPayload.user code)) := by
    unfold borrow_mut_reentrant caught_result
    simp [ReentrantRefCell.new,
      runBody_panicAt code n
        { num_mut_re_borrows := 1, borrow_state := BorrowState.exclusive, value := v }
        (by simp)]
  refine ⟨h1, ?_⟩
  intro g ret
  rw [h1]
  unfold borrow_mut_reentrant caught_result
  simp [runBody]

/-- Claim C4: when the closure terminates abnormally (the caught run ends
in an error), borrow_mut_reentrant restores the depth counter to its
prior value and re-raises exactly the original panic payload — no
wrapping, substitution or suppression. -/
theorem c4_error_passthrough {T U : Type} (b : Body T U) (c : ReentrantRefCell T)
    (p : PanicPayload) (herr : (caught_result b c).2 = Except.error p) :
    (borrow_mut_reentrant b c).1.num_mut_re_borrows = c.num_mut_re_borrows ∧
    (borrow_mut_reentrant b c).2 = Except.error p :=
  ⟨rfl, herr⟩

/-- Witness for claim C4 at the concrete input of a directly panicking
closure on a fresh cell holding 0. -/
theorem c4_error_passthrough_witness :
    (borrow_mut_reentrant (Body.raise 7 : Body Nat Nat)
        (ReentrantRefCell.new 0)).1.num_mut_re_borrows
      = (ReentrantRefCell.new (0 : Nat)).num_mut_re_borrows ∧
    (borrow_mut_reentrant (Body.raise 7 : Body Nat Nat) (ReentrantRefCell.new 0)).2
      = Except.error (PanicPayload.user 7) :=
  c4_error_passthrough (Body.raise 7) (ReentrantRefCell.new 0) (PanicPayload.user 7) rfl

/-- Claim C5: the full mechanism of borrow_mut_reentrant.  The counter is
bumped with its previous value captured, so the closure body always runs
at depth previous + 1; when the previous value was 0 the real exclusive
borrow is taken (exclusive flag during the run, released afterwards, and
a BorrowMutError if the flag was not free); when it was positive the body
runs on the same storage with the borrow flag untouched; and on every
exit — the result being a normal value or an error alike — the counter is
restored to the captured previous value. -/
theorem c5_mutate_mechanism {T U : Type} (b : Body T U) (c : ReentrantRefCell T) :
    borrow_mut_reentrant b c =
      if c.num_mut_re_borrows = 0 then
        match c.borrow_state with
        | BorrowState.unused =>
          ({ (runBody b { num_mut_re_borrows := 1, borrow_state := BorrowState.exclusive,
                          value := c.value }).1 with
             num_mut_re_borrows := 0
             borrow_state := BorrowState.unused },
           (runBody b { num_mut_re_borrows := 1, borrow_state := BorrowState.exclusive,
                        value := c.value }).2)
        | _ => (c, Except.error PanicPayload.borrowMutError)
      else
        ({ (runBody b { c with num_mut_re_borrows := c.num_mut_re_borrows + 1 }).1 with
           num_mut_re_borrows := c.num_mut_re_borrows },
         (runBody b { c with num_mut_re_borrows := c.num_mut_re_borrows + 1 }).2) := by
  obtain ⟨n, bs, w⟩ := c
  unfold borrow_mut_reentrant caught_result
  by_cases h : n = 0
  · subst h
    cases bs with
    | unused => simp
    | shared k => simp
    | exclusive => simp
  · simp [h]

/-- Claim C6: if an exclusive session is already active through a path
other than the reentrant mechanism of the cell (the borrow flag of the
inner RefCell is held while no reentrant session is running), an
outermost borrow_mut_reentrant call fails with the borrow-conflict panic
and leaves the cell state exactly as it was. -/
theorem c6_borrow_conflict {T U : Type} (b : Body T U) (c : ReentrantRefCell T)
    (hnum : c.num_mut_re_borrows = 0) (hb : c.borrow_state ≠ BorrowState.unused) :
    borrow_mut_reentrant b c = (c, Except.error PanicPayload.borrowMutError) := by
  obtain ⟨n, bs, w⟩ := c
  simp only at hnum
  subst hnum
  unfold borrow_mut_reentrant caught_result
  cases bs with
  | unused => exact absurd rfl hb
  | shared k => simp
  | exclusive => simp

/-- Witness for claim C6 at the concrete input of a cell whose borrow flag
is held exclusively while no reentrant session is active. -/
theorem c6_borrow_conflict_witness :
    borrow_mut_reentrant (Body.done (fun v => v) : Body Nat Nat)
        { num_mut_re_borrows := 0, borrow_state := BorrowState.exclusive, value := 5 }
      = ({ num_mut_re_borrows := 0, borrow_state := BorrowState.exclusive, value := 5 },
         Except.error PanicPayload.borrowMutError) :=
  c6_borrow_conflict (Body.done (fun v => v))
    { num_mut_re_borrows := 0, borrow_state := BorrowState.exclusive, value := 5 }
    rfl (by decide)

/-- Claim C7: a fresh cell holding v yields v from borrow; a
borrow_mut_reentrant call with a non-re-entering closure f returns the
result of f, and a subsequent borrow reflects the mutation f performed. -/
theorem c7_basic_contract {T U : Type} (v : T) (f : Body T U) (hf : isFlat f = true) :
    ReentrantRefCell.borrow (ReentrantRefCell.new v) = some v ∧
    borrow_mut_reentrant f (ReentrantRefCell.new v)
      = ({ num_mut_re_borrows := 0, borrow_state := BorrowState.unused,
           value := (runFlat f v).1 },
         (runFlat f v).2) ∧
    ReentrantRefCell.borrow (borrow_mut_reentrant f (ReentrantRefCell.new v)).1
      = some (runFlat f v).1 := by
  have h2 : borrow_mut_reentrant f (ReentrantRefCell.new v)
      = ({ num_mut_re_borrows := 0, borrow_state := BorrowState.unused,
           value := (runFlat f v).1 },
         (runFlat f v).2) := by
    unfold borrow_mut_reentrant caught_result
    simp [ReentrantRefCell.new,
      runBody_flat f hf
        { num_mut_re_borrows := 1, borrow_state := BorrowState.exclusive, value := v }]
  exact ⟨rfl, h2, by rw [h2]; rfl⟩

/-- Witness for claim C7 at the concrete input of a closure adding 3 to a
cell holding 10. -/
theorem c7_basic_contract_witness :
    ReentrantRefCell.borrow (ReentrantRefCell.new (10 : Nat)) = some 10 ∧
    borrow_mut_reentrant (Body.modify (fun w => w + 3) (Body.done (fun w => w)))
        (ReentrantRefCell.new (10 : Nat))
      = ({ num_mut_re_borrows := 0, borrow_state := BorrowState.unused,
           value := (runFlat (Body.modify (fun w => w + 3) (Body.done (fun w => w))) 10).1 },
         (runFlat (Body.modify (fun w => w + 3) (Body.done (fun w => w))) 10).2) ∧
    ReentrantRefCell.borrow
        (borrow_mut_reentrant (Body.modify (fun w => w + 3) (Body.done (fun w => w)))
          (ReentrantRefCell.new (10 : Nat))).1
      = some (runFlat (Body.modify (fun w => w + 3) (Body.done (fun w => w))) 10).1 :=
  c7_basic_contract 10 (Body.modify (fun w => w + 3) (Body.done (fun w => w))) rfl

/-- Claim C8: the depth-counter invariant.  The counter starts at 0 at
construction; after any sequence of top-level borrow_mut_reentrant calls
— each of whose closures may nest re-entries and may terminate
abnormally — the counter is back at 0 and the borrow flag is released;
and every single call, at any depth and on any outcome, restores both the
counter and the borrow flag to what they were before it. -/
theorem c8_depth_invariant {T U : Type} (v : T) :
    (ReentrantRefCell.new v).num_mut_re_borrows = 0 ∧
    (∀ ops : List (Body T U),
      (runOps ops (ReentrantRefCell.new v)).num_mut_re_borrows = 0 ∧
      (runOps ops (ReentrantRefCell.new v)).borrow_state = BorrowState.unused) ∧
    (∀ (b : Body T U) (c : ReentrantRefCell T),
      (borrow_mut_reentrant b c).1.num_mut_re_borrows = c.num_mut_re_borrows ∧
      (borrow_mut_reentrant b c).1.borrow_state = c.borrow_state) := by
  refine ⟨rfl, ?_, fun b c => borrow_mut_reentrant_preserves b c⟩
  intro ops
  exact runOps_preserves ops (ReentrantRefCell.new v)

/-- Claim C9: for 16-bit values low and high and each of the implementing
types u32, i32, usize and isize, the word-packing helpers round-trip:
low_u16 and high_u16 of from_low_high_u16 low high give back low and
high, and from_high_low_u16 high low equals from_low_high_u16 low high. -/
theorem c9_word_packing_roundtrip (low high : Nat)
    (hlow : low < 2 ^ 16) (hhigh : high < 2 ^ 16) :
    (U32.low_u16 (U32.from_low_high_u16 low high) = low ∧
     U32.high_u16 (U32.from_low_high_u16 low high) = high ∧
     U32.from_high_low_u16 high low = U32.from_low_high_u16 low high) ∧
    (I32.low_u16 (I32.from_low_high_u16 low high) = low ∧
     I32.high_u16 (I32.from_low_high_u16 low high) = high ∧
     I32.from_high_low_u16 high low = I32.from_low_high_u16 low high) ∧
    (Usize.low_u16 (Usize.from_low_high_u16 low high) = low ∧
     Usize.high_u16 (Usize.from_low_high_u16 low high) = high ∧
     Usize.from_high_low_u16 high low = Usize.from_low_high_u16 low high) ∧
    (Isize.low_u16 (Isize.from_low_high_u16 low high) = low ∧
     Isize.high_u16 (Isize.from_low_high_u16 low high) = high ∧
     Isize.from_high_low_u16 high low = Isize.from_low_high_u16 low high) := by
  refine ⟨⟨?_, ?_, rfl⟩, ⟨?_, ?_, rfl⟩, ⟨?_, ?_, rfl⟩, ⟨?_, ?_, rfl⟩⟩
  · unfold U32.low_u16 U32.from_low_high_u16
    rw [pack_low low high hlow, mod16_of_lt hlow]
  · unfold U32.high_u16 U32.from_low_high_u16
    rw [pack_high low high hlow hhigh, mask16_of_lt hhigh, mod16_of_lt hhigh]
  · unfold I32.low_u16 I32.from_low_high_u16
    rw [pack_low low high hlow, mod16_of_lt hlow]
  · unfold I32.high_u16 I32.from_low_high_u16 I32.asr32
    by_cases hlt : (low &&& 0xffff) ||| ((high &&& 0xffff) <<< 16) < 2 ^ 31
    · rw [if_pos hlt, pack_high low high hlow hhigh, mask16_of_lt hhigh, mod16_of_lt hhigh]
    · rw [if_neg hlt, Nat.and_distrib_right, pack_high low high hlow hhigh]
      have h0 : (2 ^ 32 - 2 ^ (32 - 16)) &&& 0xffff = 0 := by decide
      rw [h0, Nat.or_zero, mask16_of_lt hhigh, mod16_of_lt hhigh]
  · unfold Usize.low_u16 Usize.from_low_high_u16
    rw [pack_low low high hlow, mod16_of_lt hlow]
  · unfold Usize.high_u16 Usize.from_low_high_u16
    rw [pack_high low high hlow hhigh, mask16_of_lt hhigh, mod16_of_lt hhigh]
  · unfold Isize.low_u16 Isize.from_low_high_u16
    rw [pack_low low high hlow, mod16_of_lt hlow]
  · unfold Isize.high_u16 Isize.from_low_high_u16 Isize.asr64
    have hlt : (low &&& 0xffff) ||| ((high &&& 0xffff) <<< 16) < 2 ^ 63 :=
      lt_of_lt_of_le (pack_lt low high) (by norm_num)
    rw [if_pos hlt, pack_high low high hlow hhigh, mask16_of_lt hhigh, mod16_of_lt hhigh]

/-- Witness for claim C9 at the concrete halves 3 and 5. -/
theorem c9_word_packing_roundtrip_witness :
    (U32.low_u16 (U32.from_low_high_u16 3 5) = 3 ∧
     U32.high_u16 (U32.from_low_high_u16 3 5) = 5 ∧
     U32.from_high_low_u16 5 3 = U32.from_low_high_u16 3 5) ∧
    (I32.low_u16 (I32.from_low_high_u16 3 5) = 3 ∧
     I32.high_u16 (I32.from_low_high_u16 3 5) = 5 ∧
     I32.from_high_low_u16 5 3 = I32.from_low_high_u16 3 5) ∧
    (Usize.low_u16 (Usize.from_low_high_u16 3 5) = 3 ∧
     Usize.high_u16 (Usize.from_low_high_u16 3 5) = 5 ∧
     Usize.from_high_low_u16 5 3 = Usize.from_low_high_u16 3 5) ∧
    (Isize.low_u16 (Isize.from_low_high_u16 3 5) = 3 ∧
     Isize.high_u16 (Isize.from_low_high_u16 3 5) = 5 ∧
     Isize.from_high_low_u16 5 3 = Isize.from_low_high_u16 3 5) :=
  c9_word_packing_roundtrip 3 5 (by decide) (by decide)

/-- Claim C10: with a Win32Error or HResultError expectation, dual_call
returns E_UNEXPECTED without making the second call when the first call
returns Ok (the returned environment is the one after the first call
only); returns the result of the second call when the first call fails
with exactly the expected HRESULT; and returns the first error unchanged
when it fails with any other code. -/
theorem c10_dual_call_error_expectations {T S : Type} [DecidableEq T]
    (w : WIN32_ERROR) (h : HRESULT)
    (call : S → Bool → S × Except WinError T) (s : S) :
    (dual_call (FirstCallExpectation.Win32Error w) call s =
      match call s true with
      | (s1, Except.ok _) => (s1, Except.error { code := E_UNEXPECTED })
      | (s1, Except.error e) =>
        if e.code = w.to_hresult then call s1 false else (s1, Except.error e)) ∧
    (dual_call (FirstCallExpectation.HResultError h) call s =
      match call s true with
      | (s1, Except.ok _) => (s1, Except.error { code := E_UNEXPECTED })
      | (s1, Except.error e) =>
        if e.code = h then call s1 false else (s1, Except.error e)) := by
  constructor
  · show dual_call_on_expected_error w.to_hresult call s = _
    unfold dual_call_on_expected_error
    cases hres : call s true with
    | mk s1 r => cases r with
      | ok v => rfl
      | error e => rfl
  · show dual_call_on_expected_error h call s = _
    unfold dual_call_on_expected_error
    cases hres : call s true with
    | mk s1 r => cases r with
      | ok v => rfl
      | error e => rfl
